import Mathlib

/-!
Shallow embedding of the rlgraph/yarl core examined here:
  * `yarl/agents/apex_agent.py` (ApexAgent.__init__, ApexAgent.update)
  * `rlgraph/execution/environment_sample.py` (EnvironmentSample.merge_samples)
  * `rlgraph/components/action_adapters/baseline_action_adapter.py`
  * `rlgraph/components/neural_networks/policy.py`
Python integers are modelled as `Int`/`Nat` (Python `%` on a positive modulus
agrees with `Int.emod`), numpy arrays as lists, dicts as association lists,
and Python exceptions as an explicit error type threaded through `Except`.
-/

/-- Python exceptions that the embedded code can raise. -/
inductive PyErr : Type
  | keyError (key : String)
  | indexError
  | typeError
  | assertionError
  deriving DecidableEq, Repr

/-- Scalar values flowing through the executor (stand-in for tensors/ops). -/
inductive Val : Type
  | vint (n : Int)
  | vstr (s : String)
  deriving DecidableEq, Repr

/-- Association-list lookup, mirroring Python `d[k]` up to the raised error. -/
def alookup {β : Type} : List (String × β) → String → Option β
  | [], _ => none
  | (k, v) :: rest, key => if k = key then some v else alookup rest key

/-- Python `d[k]` on a dict: `KeyError` when the key is absent. -/
def dictIndex {β : Type} (d : List (String × β)) (key : String) : Except PyErr β :=
  match alookup d key with
  | some v => Except.ok v
  | none => Except.error (PyErr.keyError key)

/-- Python `t[i]` on a tuple/list: `IndexError` when out of range. -/
def pyIndex (xs : List Val) (i : Nat) : Except PyErr Val :=
  match xs.get? i with
  | some v => Except.ok v
  | none => Except.error PyErr.indexError

/-- Result of one `graph_executor.execute` round: a plain tuple for an
ordinary single-method call, or a dict keyed by method name when a companion
call was bundled. -/
inductive ExecRet : Type
  | tuple (vals : List Val)
  | dict (entries : List (String × List Val))
  deriving DecidableEq, Repr

/-- Modelled from the spec: the Graph Executor (spec section 4.4) is not under
src/; per the spec it executes the requested method, optionally also a second,
independent companion call in the same round, and "if multiple named method
results are requested, results are returned as a mapping keyed by method name;
ordinary single-method calls return a plain ordered sequence".  `results` is
the oracle giving each method's full return tuple. -/
def specExecute (results : String → List Val) (method : String)
    (syncCall : Option String) : ExecRet :=
  match syncCall with
  | none => ExecRet.tuple (results method)
  | some s => ExecRet.dict [(method, results method), (s, results s)]

/-- One executor invocation made by `ApexAgent.update`: the method executed
and the companion sync call bundled into the round (if any). -/
structure ExecCall : Type where
  method : String
  sync : Option String
  deriving DecidableEq, Repr

/-- Outcome of one `ApexAgent.update` call: the executor invocations that were
made, and either the returned loss together with the new `train_time_steps`
counter, or the Python exception raised. -/
structure UpdateResult : Type where
  calls : List ExecCall
  result : Except PyErr (Val × Nat)
  deriving Repr

namespace ApexAgent

/-- The tail of both branches of `ApexAgent.update` (apex_agent.py lines
161-163 and 176-178): `if isinstance(ret, dict): ret = ret["update_from_memory"]`
followed by `return ret[1]`.  Note the literal key `"update_from_memory"` is
used in BOTH branches of the source. -/
def extractLoss (ret : ExecRet) : Except PyErr Val :=
  match ret with
  | ExecRet.dict entries =>
      match dictIndex entries "update_from_memory" with
      | Except.error e => Except.error e
      | Except.ok vals => pyIndex vals 1
  | ExecRet.tuple vals => pyIndex vals 1

/-- `ApexAgent.update` (apex_agent.py lines 150-182).  `results` is the
graph-executor oracle, `sync_interval` is `self.update_spec["sync_interval"]`,
`train_time_steps` the counter value on entry, `batch` the optional external
batch dict. -/
def update (results : String → List Val) (sync_interval : Nat)
    (train_time_steps : Nat) (batch : Option (List (String × Val))) :
    UpdateResult :=
  let sync_call : Option String :=
    if ((train_time_steps : Int) - 1) % (sync_interval : Int) = 0 then
      some "sync_target_qnet"
    else
      none
  match batch with
  | none =>
      let ret := specExecute results "update_from_memory" sync_call
      let calls := [ExecCall.mk "update_from_memory" sync_call]
      match extractLoss ret with
      | Except.error e => UpdateResult.mk calls (Except.error e)
      | Except.ok loss =>
          UpdateResult.mk calls (Except.ok (loss, train_time_steps + 1))
  | some b =>
      match dictIndex b "states" with
      | Except.error e => UpdateResult.mk [] (Except.error e)
      | Except.ok _ =>
      match dictIndex b "actions" with
      | Except.error e => UpdateResult.mk [] (Except.error e)
      | Except.ok _ =>
      match dictIndex b "rewards" with
      | Except.error e => UpdateResult.mk [] (Except.error e)
      | Except.ok _ =>
      match dictIndex b "terminals" with
      | Except.error e => UpdateResult.mk [] (Except.error e)
      | Except.ok _ =>
      match dictIndex b "next_states" with
      | Except.error e => UpdateResult.mk [] (Except.error e)
      | Except.ok _ =>
      let ret := specExecute results "update_from_external_batch" sync_call
      let calls := [ExecCall.mk "update_from_external_batch" sync_call]
      match extractLoss ret with
      | Except.error e => UpdateResult.mk calls (Except.error e)
      | Except.ok loss =>
          UpdateResult.mk calls (Except.ok (loss, train_time_steps + 1))

/-- `n` consecutive `update` calls in replay-pull mode starting from counter
value `t`, collecting per call whether a sync was bundled; an exception stops
the run after recording the failing call's sync flag. -/
def runUpdates (results : String → List Val) (sync_interval : Nat) :
    Nat → Nat → List Bool
  | 0, _ => []
  | n + 1, t =>
      let u := update results sync_interval t none
      let flag := u.calls.any (fun c => c.sync.isSome)
      match u.result with
      | Except.ok (_, t') => flag :: runUpdates results sync_interval n t'
      | Except.error _ => [flag]

end ApexAgent

/-- A constant executor oracle: every method returns the 2-tuple
(no-op update trigger, loss). -/
def constResults : String → List Val := fun _ => [Val.vint 0, Val.vint 7]

/-- The five batch keys `ApexAgent.update` reads (apex_agent.py lines
167-173), in evaluation order. -/
def requiredKeys : List String :=
  ["states", "actions", "rewards", "terminals", "next_states"]

/-- Events recorded while running `ApexAgent.__init__`. -/
inductive InitEvent : Type
  | parentDQNInit
  deriving DecidableEq, Repr

namespace ApexAgent

/-- `ApexAgent.__init__` (apex_agent.py lines 34-44).  `memory_spec` is the
optional spec dict.  Python raises `TypeError` on `None["type"]`, `KeyError`
when `"type"` is absent, `AssertionError` when the assert fails; only after
the assert passes is `DQNAgent.__init__` run (recorded as an `InitEvent`) and
`train_time_steps` set to 0.  The returned Nat is `self.train_time_steps`. -/
def init (memory_spec : Option (List (String × String))) :
    List InitEvent × Except PyErr Nat :=
  match memory_spec with
  | none => ([], Except.error PyErr.typeError)
  | some d =>
      match alookup d "type" with
      | none => ([], Except.error (PyErr.keyError "type"))
      | some v =>
          if v = "prioritized_replay" then
            ([InitEvent.parentDQNInit], Except.ok 0)
          else
            ([], Except.error PyErr.assertionError)

end ApexAgent

/-- `EnvironmentSample` (environment_sample.py lines 25-56): the fields kept
by `__init__` that `merge_samples` can see.  The class defines no
`__getitem__`. -/
structure EnvironmentSample : Type where
  sample_batch : List (String × List Int)
  deriving DecidableEq, Repr

namespace EnvironmentSample

/-- Python subscription `sample[key]` on an `EnvironmentSample` object: the
class defines no `__getitem__`, so it raises `TypeError` for every key. -/
def getitem (_s : EnvironmentSample) (_key : String) : Except PyErr (List Int) :=
  Except.error PyErr.typeError

/-- The list comprehension `[sample[key] for sample in samples]`. -/
def gatherKey (samples : List EnvironmentSample) (key : String) :
    Except PyErr (List (List Int)) :=
  match samples with
  | [] => Except.ok []
  | s :: rest =>
      match s.getitem key, gatherKey rest key with
      | Except.error e, _ => Except.error e
      | Except.ok v, Except.ok vs => Except.ok (v :: vs)
      | Except.ok _, Except.error e => Except.error e

/-- The `for key in sample_layout.keys()` loop of `merge_samples`: builds
`batch[key] = np.concatenate([sample[key] for sample in samples])` for each
key of the first sample's `sample_batch`, in that key order. -/
def mergeLoop (samples : List EnvironmentSample) :
    List String → Except PyErr (List (String × List Int))
  | [] => Except.ok []
  | key :: rest =>
      match gatherKey samples key with
      | Except.error e => Except.error e
      | Except.ok arrays =>
          match mergeLoop samples rest with
          | Except.error e => Except.error e
          | Except.ok batch => Except.ok ((key, arrays.flatten) :: batch)

/-- `EnvironmentSample.merge_samples` (environment_sample.py lines 58-77) with
`decompress=False`: takes `sample_layout = samples[0].sample_batch`
(IndexError on an empty list) and runs the merge loop over its keys. -/
def merge_samples (samples : List EnvironmentSample) :
    Except PyErr (List (String × List Int)) :=
  match samples with
  | [] => Except.error PyErr.indexError
  | s0 :: _ => mergeLoop samples (s0.sample_batch.map Prod.fst)

end EnvironmentSample

/-- A shaped tensor: a target shape together with the flat data.  `tf.reshape`
keeps the flat data and installs the new shape. -/
structure STensor : Type where
  shape : List Nat
  flat : List ℚ
  deriving DecidableEq, Repr

/-- `tf.reshape(tensor, shape)` per batch item: succeeds exactly when the
element count matches the product of the target shape. -/
def tfReshape (shape : List Nat) (xs : List ℚ) : Option STensor :=
  if xs.length = shape.prod then some (STensor.mk shape xs) else none

namespace BaselineActionAdapter

/-- `BaselineActionAdapter.__init__` (baseline_action_adapter.py lines 34-36)
passes `add_units=1` to the parent ActionAdapter. -/
def add_units : Nat := 1

/-- `BaselineActionAdapter._graph_fn_get_state_value_and_logits`
(baseline_action_adapter.py lines 63-88), acting on one batch item (the ops
`tf.split`/`tf.squeeze`/`tf.reshape` all act per item along the last axis):
`tf.split(value, (1, units - 1), axis=-1)` requires the last-axis width to be
`1 + (units - 1)`; the 1-wide state-value slice is squeezed to a scalar; the
remaining `units - 1` values are reshaped to the action-space shape. -/
def graph_fn_get_state_value_and_logits (units : Nat) (action_shape : List Nat)
    (row : List ℚ) : Option (ℚ × STensor) :=
  if 1 + (units - 1) = row.length then
    match row.take 1 with
    | [v] =>
        match tfReshape action_shape (row.drop 1) with
        | some t => some (v, t)
        | none => none
    | _ => none
  else none

/-- The same graph function over a whole batch (a list of flat rows): each
per-item op is applied to every batch item; any failing item fails the op. -/
def graph_fn_batched (units : Nat) (action_shape : List Nat) :
    List (List ℚ) → Option (List ℚ × List STensor)
  | [] => some ([], [])
  | row :: rest =>
      match graph_fn_get_state_value_and_logits units action_shape row,
            graph_fn_batched units action_shape rest with
      | some (v, t), some (vs, ts) => some (v :: vs, t :: ts)
      | _, _ => none

end BaselineActionAdapter

/-- The action-space kinds the `Policy` constructor distinguishes
(policy.py lines 191-198): `IntBox` (discrete), `FloatBox` (continuous), or
anything else. -/
inductive Space : Type
  | intBox (shape : List Nat) (num_categories : Nat)
  | floatBox (shape : List Nat)
  | other (type_name : String)
  deriving DecidableEq, Repr

/-- `isinstance(space, IntBox)`. -/
def Space.isIntBox : Space → Bool
  | Space.intBox _ _ => true
  | _ => false

/-- The distribution components a `Policy` can own. -/
inductive DistKind : Type
  | categorical
  | normal
  deriving DecidableEq, Repr

/-- `RLGraphError` carrying its message. -/
structure RLGraphErr : Type where
  msg : String
  deriving DecidableEq, Repr

/-- The action-adapter variants distinguished by `Policy.__init__`
(policy.py lines 118-188). -/
inductive AdapterVariant : Type
  | plain
  | dueling
  | baseline
  deriving DecidableEq, Repr

/-- API methods an action-adapter instance defines, by variant.  For
`BaselineActionAdapter` these are read off baseline_action_adapter.py
(`get_logits_parameters_log_probs` and `get_state_value_and_logits`, plus the
inherited common contract).  Modelled from the spec: the parent
`ActionAdapter` class and the `DuelingActionAdapter` are not under src/; per
the spec (sections 4.2 and 6) the common adapter contract is
`get_logits_parameters_log_probs` (plus the action-layer pass-through used by
policy.py, `get_action_layer_output`), and the Dueling variant additionally
exposes its dueling decomposition (`get_dueling_output`, per the policy.py
docstring). -/
def adapterApiMethods : AdapterVariant → List String
  | AdapterVariant.plain =>
      ["get_action_layer_output", "get_logits_parameters_log_probs"]
  | AdapterVariant.dueling =>
      ["get_action_layer_output", "get_logits_parameters_log_probs",
       "get_dueling_output"]
  | AdapterVariant.baseline =>
      ["get_action_layer_output", "get_logits_parameters_log_probs",
       "get_state_value_and_logits"]

namespace Policy

/-- The adapter API method that the `get_q_values` body defined in
`Policy.__init__` invokes, by variant: policy.py line 136 (dueling), line 178
(baseline), line 185 (plain). -/
def get_q_values_adapter_call : AdapterVariant → String
  | AdapterVariant.dueling => "get_logits_parameters_log_probs"
  | AdapterVariant.baseline => "get_state_values_and_logits"
  | AdapterVariant.plain => "get_logits_parameters_log_probs"

end Policy

/-- The state a constructed `Policy` holds (the fields of `Policy.__init__`
relevant here). -/
structure PolicyState : Type where
  variant : AdapterVariant
  action_space : Space
  writable : Bool
  max_likelihood : Bool
  distribution : DistKind
  api_methods : List String
  deriving DecidableEq, Repr

namespace Policy

/-- `Policy.__init__` (policy.py lines 82-212): registers the per-variant API
methods (`get_baseline_output` and
`get_state_values_logits_parameters_log_probs` only for the baseline variant,
then `get_q_values` for every variant), then chooses the distribution from
the action-space kind — `Categorical` for `IntBox`, `Normal` for `FloatBox`,
and raises `RLGraphError` for anything else — and finally composes in the
`sync` API when `writable`. -/
def init (variant : AdapterVariant) (action_space : Space) (writable : Bool)
    (max_likelihood : Bool) : Except RLGraphErr PolicyState :=
  let api_methods :=
    (match variant with
     | AdapterVariant.baseline =>
         ["get_baseline_output", "get_state_values_logits_parameters_log_probs",
          "get_q_values"]
     | _ => ["get_q_values"]) ++ (if writable then ["sync"] else [])
  match action_space with
  | Space.intBox _ _ =>
      Except.ok (PolicyState.mk variant action_space writable max_likelihood
        DistKind.categorical api_methods)
  | Space.floatBox _ =>
      Except.ok (PolicyState.mk variant action_space writable max_likelihood
        DistKind.normal api_methods)
  | Space.other type_name =>
      Except.error (RLGraphErr.mk
        ("ERROR: `action_space` is of type " ++ type_name ++
          " and not allowed in policy Component!"))

end Policy

/-- `tf.argmax(row, axis=-1)` on one batch item: the index of the first
occurrence of the maximum (0 on an empty row, which tf rejects anyway). -/
def argmaxLast : List ℚ → Nat
  | [] => 0
  | [_] => 0
  | x :: y :: rest =>
      if x < (y :: rest).getD (argmaxLast (y :: rest)) 0 then
        argmaxLast (y :: rest) + 1
      else
        0

namespace Policy

/-- `Policy._graph_fn_get_max_likelihood_action_wo_distribution`
(policy.py lines 288-302): the argmax over the last rank of the logits,
per batch item. -/
def graph_fn_get_max_likelihood_action_wo_distribution
    (logits : List (List ℚ)) : List Nat :=
  logits.map argmaxLast

end Policy

/-- Distribution-component operations (the sampling API of the Distribution
collaborator, spec section 6). -/
inductive DistOp : Type
  | draw (max_likelihood : Bool)
  | sample_deterministic
  | sample_stochastic
  deriving DecidableEq, Repr

/-- The `sample` produced by `Policy.get_action`: either the argmax path's
integer actions, or the (symbolic) result of `distribution.draw`. -/
inductive ActionResult : Type
  | ints (xs : List Nat)
  | drawn (parameters : List (List ℚ)) (max_likelihood : Bool)
  deriving DecidableEq, Repr

/-- The `(logits, parameters, log_probs)` triple returned by the adapter's
`get_logits_parameters_log_probs`. -/
structure AdapterOut : Type where
  logits : List (List ℚ)
  parameters : List (List ℚ)
  log_probs : List (List ℚ)
  deriving DecidableEq, Repr

namespace Policy

/-- `Policy.get_action` (policy.py lines 215-230): resolve `max_likelihood`
against the constructor default; if it is `True` and the action space is an
`IntBox`, take the argmax graph function over the adapter's logits (no
distribution op at all); otherwise call `distribution.draw(parameters,
max_likelihood)`.  The second component records every distribution op
invoked. -/
def get_action (p : PolicyState) (adapter_out : AdapterOut)
    (max_likelihood : Option Bool) : ActionResult × List DistOp :=
  let ml := max_likelihood.getD p.max_likelihood
  if ml = true ∧ p.action_space.isIntBox = true then
    (ActionResult.ints
      (graph_fn_get_max_likelihood_action_wo_distribution adapter_out.logits),
     [])
  else
    (ActionResult.drawn adapter_out.parameters ml, [DistOp.draw ml])

end Policy

/-- Every executor invocation recorded by `ApexAgent.update` carries, as its
bundled sync, exactly the `sync_call` computed from the entry counter value. -/
theorem ApexAgent.update_calls_sync (results : String → List Val) (N t : Nat)
    (batch : Option (List (String × Val))) :
    ∀ c ∈ (ApexAgent.update results N t batch).calls,
      c.sync = (if ((t : Int) - 1) % (N : Int) = 0 then
        some "sync_target_qnet" else none) := by
  intro c hcmem
  simp only [ApexAgent.update] at hcmem
  generalize hg : (if ((t : Int) - 1) % (N : Int) = 0 then
      some "sync_target_qnet" else none) = sc at hcmem ⊢
  cases batch with
  | none =>
      rcases h : ApexAgent.extractLoss
          (specExecute results "update_from_memory" sc) with e | l <;>
        simp only [h] at hcmem <;> simp at hcmem <;> simp [hcmem]
  | some b =>
      rcases h1 : dictIndex b "states" with e1 | v1 <;> simp only [h1] at hcmem
      · simp at hcmem
      rcases h2 : dictIndex b "actions" with e2 | v2 <;> simp only [h2] at hcmem
      · simp at hcmem
      rcases h3 : dictIndex b "rewards" with e3 | v3 <;> simp only [h3] at hcmem
      · simp at hcmem
      rcases h4 : dictIndex b "terminals" with e4 | v4 <;>
        simp only [h4] at hcmem
      · simp at hcmem
      rcases h5 : dictIndex b "next_states" with e5 | v5 <;>
        simp only [h5] at hcmem
      · simp at hcmem
      rcases h : ApexAgent.extractLoss
          (specExecute results "update_from_external_batch" sc) with e | l <;>
        simp only [h] at hcmem <;> simp at hcmem <;> simp [hcmem]

/-- Whenever `ApexAgent.update` returns normally, the counter it hands back is
the entry counter incremented by exactly 1. -/
theorem ApexAgent.update_increments (results : String → List Val) (N t : Nat)
    (batch : Option (List (String × Val))) :
    ∀ loss t',
      (ApexAgent.update results N t batch).result = Except.ok (loss, t') →
      t' = t + 1 := by
  intro loss t' hres
  simp only [ApexAgent.update] at hres
  generalize hg : (if ((t : Int) - 1) % (N : Int) = 0 then
      some "sync_target_qnet" else none) = sc at hres
  cases batch with
  | none =>
      rcases h : ApexAgent.extractLoss
          (specExecute results "update_from_memory" sc) with e | l <;>
        simp only [h] at hres <;> simp at hres
      exact hres.2.symm
  | some b =>
      rcases h1 : dictIndex b "states" with e1 | v1 <;> simp only [h1] at hres
      · simp at hres
      rcases h2 : dictIndex b "actions" with e2 | v2 <;> simp only [h2] at hres
      · simp at hres
      rcases h3 : dictIndex b "rewards" with e3 | v3 <;> simp only [h3] at hres
      · simp at hres
      rcases h4 : dictIndex b "terminals" with e4 | v4 <;> simp only [h4] at hres
      · simp at hres
      rcases h5 : dictIndex b "next_states" with e5 | v5 <;>
        simp only [h5] at hres
      · simp at hres
      rcases h : ApexAgent.extractLoss
          (specExecute results "update_from_external_batch" sc) with e | l <;>
        simp only [h] at hres <;> simp at hres
      exact hres.2.symm

/-- C1: for every call to `ApexAgent.update` (replay-pull or external-batch
mode), a target-network sync call is bundled into the executor round iff
`(train_time_steps - 1) mod sync_interval == 0`, the condition being evaluated
on the counter value before `update` increments it by exactly 1 at the end of
the call. -/
theorem C1_sync_bundled_iff (results : String → List Val) (N t : Nat)
    (batch : Option (List (String × Val))) (hN : 0 < N) :
    (∀ c ∈ (ApexAgent.update results N t batch).calls,
        (c.sync = some "sync_target_qnet" ↔ ((t : Int) - 1) % (N : Int) = 0))
    ∧ (∀ loss t',
        (ApexAgent.update results N t batch).result = Except.ok (loss, t') →
        t' = t + 1) := by
  refine ⟨fun c hcmem => ?_, ApexAgent.update_increments results N t batch⟩
  have hcs := ApexAgent.update_calls_sync results N t batch c hcmem
  by_cases hc : ((t : Int) - 1) % (N : Int) = 0 <;> simp [hc] at hcs <;>
    simp [hcs, hc]

/-- Witness for C1 at `sync_interval = 4`, `train_time_steps = 1`,
replay-pull mode. -/
theorem C1_sync_bundled_iff_witness :
    (∀ c ∈ (ApexAgent.update constResults 4 1 none).calls,
        (c.sync = some "sync_target_qnet" ↔ ((1 : Int) - 1) % (4 : Int) = 0))
    ∧ (∀ loss t',
        (ApexAgent.update constResults 4 1 none).result = Except.ok (loss, t') →
        t' = 1 + 1) :=
  C1_sync_bundled_iff constResults 4 1 none (by decide)

/-- C2 counterexample: with `sync_interval = 4` and `train_time_steps`
starting at 0, nine consecutive replay-pull `update` calls do NOT issue syncs
on calls 1, 5 and 9 — already the very first call issues no sync, since
`(0 - 1) % 4 = 3` in Python. -/
theorem C2_counterexample :
    ApexAgent.runUpdates constResults 4 9 0 ≠
      [true, false, false, false, true, false, false, false, true] := by decide

/-- C2 amended: with `sync_interval = 4` and `train_time_steps` starting at 0,
nine consecutive `update` calls issue a sync exactly on the 2nd and 6th calls
and on no other call. -/
theorem C2_amended_sync_pattern :
    ApexAgent.runUpdates constResults 4 9 0 =
      [false, true, false, false, false, true, false, false, false] := by decide

/-- The external batch with all five required keys present. -/
def fullBatch : List (String × Val) :=
  [("states", Val.vint 1), ("actions", Val.vint 2), ("rewards", Val.vint 3),
   ("terminals", Val.vint 4), ("next_states", Val.vint 5)]

/-- C3 (code bug): in external-batch mode on a step where the sync is due
(counter = 1, so the executor returns a mapping keyed by
`update_from_external_batch` and `sync_target_qnet`), `update` looks up the
key `update_from_memory` — the key of the OTHER mode's method — and therefore
raises `KeyError` instead of returning the loss at index 1 of the executed
method's tuple. -/
theorem C3_external_batch_sync_key_error :
    (ApexAgent.update constResults 4 1 (some fullBatch)).calls =
      [ExecCall.mk "update_from_external_batch" (some "sync_target_qnet")]
    ∧ (ApexAgent.update constResults 4 1 (some fullBatch)).result =
      Except.error (PyErr.keyError "update_from_memory") :=
  ⟨rfl, rfl⟩

/-- C4: whenever the supplied batch dict is missing at least one of the five
required keys, `update` raises a `KeyError` for a missing required key, makes
no executor invocation at all, and substitutes no default (there is no normal
return). -/
theorem C4_missing_batch_key_fails_fast (results : String → List Val)
    (N t : Nat) (b : List (String × Val))
    (hmiss : ∃ k0 ∈ requiredKeys, alookup b k0 = none) :
    ∃ k ∈ requiredKeys, alookup b k = none ∧
      (ApexAgent.update results N t (some b)).calls = [] ∧
      (ApexAgent.update results N t (some b)).result =
        Except.error (PyErr.keyError k) := by
  simp only [ApexAgent.update]
  generalize (if ((t : Int) - 1) % (N : Int) = 0 then
      some "sync_target_qnet" else none) = sc
  rcases h1 : alookup b "states" with _ | v1
  · exact ⟨"states", by simp [requiredKeys], h1, by simp [dictIndex, h1]⟩
  rcases h2 : alookup b "actions" with _ | v2
  · exact ⟨"actions", by simp [requiredKeys], h2,
      by simp [dictIndex, h1, h2]⟩
  rcases h3 : alookup b "rewards" with _ | v3
  · exact ⟨"rewards", by simp [requiredKeys], h3,
      by simp [dictIndex, h1, h2, h3]⟩
  rcases h4 : alookup b "terminals" with _ | v4
  · exact ⟨"terminals", by simp [requiredKeys], h4,
      by simp [dictIndex, h1, h2, h3, h4]⟩
  rcases h5 : alookup b "next_states" with _ | v5
  · exact ⟨"next_states", by simp [requiredKeys], h5,
      by simp [dictIndex, h1, h2, h3, h4, h5]⟩
  exfalso
  rcases hmiss with ⟨k0, hk0mem, hk0⟩
  simp [requiredKeys] at hk0mem
  rcases hk0mem with rfl | rfl | rfl | rfl | rfl <;>
    simp_all

/-- Witness for C4: a batch holding only `states` (missing the other four
keys) fails fast with a `KeyError` and no executor invocation. -/
theorem C4_missing_batch_key_fails_fast_witness :
    ∃ k ∈ requiredKeys, alookup [("states", Val.vint 1)] k = none ∧
      (ApexAgent.update constResults 4 0 (some [("states", Val.vint 1)])).calls
        = [] ∧
      (ApexAgent.update constResults 4 0
          (some [("states", Val.vint 1)])).result =
        Except.error (PyErr.keyError k) :=
  C4_missing_batch_key_fails_fast constResults 4 0 [("states", Val.vint 1)]
    ⟨"actions", by decide, by decide⟩

/-- C5 (code bug): merging three `EnvironmentSample`s of size 10 with matching
keys does not produce a size-30 batch — the comprehension
`[sample[key] for sample in samples]` subscripts the `EnvironmentSample`
OBJECTS, which define no `__getitem__`, so `merge_samples` raises `TypeError`
on its first key instead of concatenating the `sample_batch` arrays. -/
theorem C5_merge_samples_type_error :
    EnvironmentSample.merge_samples
      [EnvironmentSample.mk [("states", List.replicate 10 1)],
       EnvironmentSample.mk [("states", List.replicate 10 2)],
       EnvironmentSample.mk [("states", List.replicate 10 3)]] =
      Except.error PyErr.typeError := rfl

/-- C10: `ApexAgent.__init__` succeeds exactly when `memory_spec` is a dict
whose `"type"` entry equals `"prioritized_replay"`; every other value (a
`None` spec, a missing `"type"` key, or any other type string) raises an
exception before `DQNAgent.__init__` is ever run. -/
theorem C10_memory_spec_gate (memory_spec : Option (List (String × String))) :
    ((∃ d, memory_spec = some d ∧
        alookup d "type" = some "prioritized_replay") →
      ApexAgent.init memory_spec = ([InitEvent.parentDQNInit], Except.ok 0))
    ∧ (¬ (∃ d, memory_spec = some d ∧
          alookup d "type" = some "prioritized_replay") →
      InitEvent.parentDQNInit ∉ (ApexAgent.init memory_spec).1 ∧
      ∃ e, (ApexAgent.init memory_spec).2 = Except.error e) := by
  constructor
  · rintro ⟨d, rfl, hty⟩
    simp [ApexAgent.init, hty]
  · intro hne
    cases memory_spec with
    | none => simp [ApexAgent.init]
    | some d =>
        rcases hty : alookup d "type" with _ | v
        · simp [ApexAgent.init, hty]
        · by_cases hv : v = "prioritized_replay"
          · exact absurd ⟨d, rfl, hv ▸ hty⟩ hne
          · simp [ApexAgent.init, hty, hv]

/-- Witness for C10: a `"type"` of `"replay"` is rejected before the parent
DQN agent is initialized. -/
theorem C10_memory_spec_gate_witness :
    InitEvent.parentDQNInit ∉
      (ApexAgent.init (some [("type", "replay")])).1 ∧
    ∃ e, (ApexAgent.init (some [("type", "replay")])).2 = Except.error e :=
  (C10_memory_spec_gate (some [("type", "replay")])).2 (by
    rintro ⟨d, hd, hty⟩
    cases hd
    simp [alookup] at hty)

/-- C9: `Policy.__init__` picks `Categorical` for an `IntBox` action space,
`Normal` for a `FloatBox`, and raises `RLGraphError` for every other
action-space kind; the chosen distribution is stored in the constructed
policy state (and nothing in the embedded code ever rewrites it). -/
theorem C9_distribution_from_space_kind (variant : AdapterVariant)
    (writable max_likelihood : Bool) (s : Space) :
    (∀ sh n, s = Space.intBox sh n →
      ∃ p, Policy.init variant s writable max_likelihood = Except.ok p ∧
        p.distribution = DistKind.categorical ∧ p.action_space = s)
    ∧ (∀ sh, s = Space.floatBox sh →
      ∃ p, Policy.init variant s writable max_likelihood = Except.ok p ∧
        p.distribution = DistKind.normal ∧ p.action_space = s)
    ∧ (∀ nm, s = Space.other nm →
      ∃ e, Policy.init variant s writable max_likelihood = Except.error e) := by
  refine ⟨?_, ?_, ?_⟩
  · rintro sh n rfl
    exact ⟨_, rfl, rfl, rfl⟩
  · rintro sh rfl
    exact ⟨_, rfl, rfl, rfl⟩
  · rintro nm rfl
    exact ⟨_, rfl⟩

/-- Witness for C9: a dict-like (unsupported) action space is a
construction-time error, and an `IntBox` yields `Categorical`. -/
theorem C9_distribution_from_space_kind_witness :
    (∃ p, Policy.init AdapterVariant.plain (Space.intBox [] 4) false true =
        Except.ok p ∧ p.distribution = DistKind.categorical ∧
        p.action_space = Space.intBox [] 4) ∧
    ∃ e, Policy.init AdapterVariant.plain (Space.other "Dict") false true =
        Except.error e :=
  ⟨(C9_distribution_from_space_kind AdapterVariant.plain false true
      (Space.intBox [] 4)).1 [] 4 rfl,
   (C9_distribution_from_space_kind AdapterVariant.plain false true
      (Space.other "Dict")).2.2 "Dict" rfl⟩

/-- C7 (code bug): for the Baseline variant, the `get_q_values` body defined
in `Policy.__init__` (policy.py line 178) invokes the adapter API method
`get_state_values_and_logits`, but the Baseline adapter defines
`get_state_value_and_logits` (singular) — so tracing `get_q_values` hits an
adapter API method that is not defined. -/
theorem C7_baseline_get_q_values_undefined_adapter_method :
    Policy.get_q_values_adapter_call AdapterVariant.baseline =
      "get_state_values_and_logits"
    ∧ ¬ ("get_state_values_and_logits" ∈
        adapterApiMethods AdapterVariant.baseline) := by
  exact ⟨rfl, by decide⟩

/-- `argmaxLast` really points at a maximum: every element of the row is at
most the element at the returned index. -/
theorem argmaxLast_le : ∀ (row : List ℚ), ∀ x ∈ row,
    x ≤ row.getD (argmaxLast row) 0
  | [] => by simp
  | [a] => by
      intro x hx
      simp at hx
      simp [argmaxLast, hx]
  | a :: b :: rest => by
      intro x hx
      have ih := argmaxLast_le (b :: rest)
      by_cases hc : a < (b :: rest).getD (argmaxLast (b :: rest)) 0
      · have hval : (a :: b :: rest).getD (argmaxLast (a :: b :: rest)) 0 =
            (b :: rest).getD (argmaxLast (b :: rest)) 0 := by
          simp only [argmaxLast, if_pos hc]
          rfl
        rw [hval]
        rcases List.mem_cons.mp hx with rfl | hx
        · exact le_of_lt hc
        · exact ih x hx
      · have hval : (a :: b :: rest).getD (argmaxLast (a :: b :: rest)) 0 =
            a := by
          simp only [argmaxLast, if_neg hc]
          rfl
        rw [hval]
        rcases List.mem_cons.mp hx with rfl | hx
        · exact le_rfl
        · exact le_trans (ih x hx) (not_lt.mp hc)

/-- C8: resolving `max_likelihood` against the constructor default, if it is
true and the action space is discrete (`IntBox`), `get_action` is the argmax
over the last axis of the adapter's logits — a true per-row maximum — and no
distribution op whatsoever is invoked; in every other case it delegates to
`distribution.draw` on the adapter's parameters. -/
theorem C8_get_action_argmax_or_draw (p : PolicyState)
    (adapter_out : AdapterOut) (max_likelihood : Option Bool) :
    ((max_likelihood.getD p.max_likelihood = true ∧
        p.action_space.isIntBox = true) →
      Policy.get_action p adapter_out max_likelihood =
        (ActionResult.ints
          (Policy.graph_fn_get_max_likelihood_action_wo_distribution
            adapter_out.logits), []) ∧
      ∀ row ∈ adapter_out.logits, ∀ x ∈ row,
        x ≤ row.getD (argmaxLast row) 0)
    ∧ (¬ (max_likelihood.getD p.max_likelihood = true ∧
          p.action_space.isIntBox = true) →
      Policy.get_action p adapter_out max_likelihood =
        (ActionResult.drawn adapter_out.parameters
          (max_likelihood.getD p.max_likelihood),
         [DistOp.draw (max_likelihood.getD p.max_likelihood)])) := by
  constructor
  · intro hcond
    constructor
    · simp only [Policy.get_action, if_pos hcond]
    · intro row _ x hx
      exact argmaxLast_le row x hx
  · intro hcond
    simp only [Policy.get_action, if_neg hcond]

/-- A concrete discrete policy state (3 actions, greedy default). -/
def demoPolicy : PolicyState :=
  PolicyState.mk AdapterVariant.plain (Space.intBox [] 3) false true
    DistKind.categorical ["get_q_values"]

/-- A concrete adapter output for one batch item with logits `[1, 3, 2]`. -/
def demoAdapterOut : AdapterOut :=
  AdapterOut.mk [[1, 3, 2]] [[1, 3, 2]] [[0, 0, 0]]

/-- Witness for C8: on the discrete greedy path, `get_action` is the argmax
and the distribution-op trace is empty. -/
theorem C8_get_action_argmax_or_draw_witness :
    Policy.get_action demoPolicy demoAdapterOut none =
      (ActionResult.ints
        (Policy.graph_fn_get_max_likelihood_action_wo_distribution
          demoAdapterOut.logits), []) ∧
    ∀ row ∈ demoAdapterOut.logits, ∀ x ∈ row,
      x ≤ row.getD (argmaxLast row) 0 :=
  (C8_get_action_argmax_or_draw demoPolicy demoAdapterOut none).1 (by decide)

/-- On a row of the layer's full width `units` (with `action_shape` filling
the `units - 1` logit slots), the Baseline slicing graph function returns the
squeezed head as the state value and the remaining `units - 1` entries,
reshaped to `action_shape`, as the logits. -/
theorem BaselineActionAdapter.graph_fn_row_eq (units : Nat)
    (action_shape : List Nat) (row : List ℚ) (hu : 1 ≤ units)
    (hlen : row.length = units) (hshape : action_shape.prod = units - 1) :
    BaselineActionAdapter.graph_fn_get_state_value_and_logits units
        action_shape row =
      some (row.headI, STensor.mk action_shape row.tail) := by
  cases row with
  | nil =>
      simp at hlen
      omega
  | cons a rest =>
      have h1 : 1 + (units - 1) = (a :: rest).length := by
        simp at hlen ⊢
        omega
      have hr : rest.length = action_shape.prod := by
        simp at hlen
        omega
      simp only [BaselineActionAdapter.graph_fn_get_state_value_and_logits,
        if_pos h1]
      simp [tfReshape, hr]

/-- C6: for every action-layer output whose rows all have the layer's flat
width `units` (with the action space accounting for the other `units - 1`
slots), the Baseline slicing step yields exactly one squeezed state-value
scalar per batch item and `units - 1` logit entries per item (the logits
slice is `units - 1` wide), the logits tensor carries exactly the configured
action-space shape with the sliced data unchanged (so flattening it returns
the slice), and the adapter is constructed with `add_units = 1`. -/
theorem C6_baseline_slice_and_reshape (units : Nat) (action_shape : List Nat)
    (output : List (List ℚ)) (hu : 1 ≤ units)
    (hrows : ∀ row ∈ output, row.length = units)
    (hshape : action_shape.prod = units - 1) :
    BaselineActionAdapter.add_units = 1 ∧
    BaselineActionAdapter.graph_fn_batched units action_shape output =
      some (output.map List.headI,
        output.map (fun row => STensor.mk action_shape row.tail)) ∧
    ∀ row ∈ output, row.tail.length = units - 1 := by
  refine ⟨rfl, ?_, ?_⟩
  · induction output with
    | nil => rfl
    | cons row rest ih =>
        have hrow := hrows row (by simp)
        have hrest : ∀ r ∈ rest, r.length = units := by
          intro r hr
          exact hrows r (by simp [hr])
        simp only [BaselineActionAdapter.graph_fn_batched,
          BaselineActionAdapter.graph_fn_row_eq units action_shape row hu
            hrow hshape, ih hrest, List.map]
  · intro row hrow
    have hrI := hrows row hrow
    simp [List.length_tail, hrI]

/-- Witness for C6: `units = 5`, action shape `[2, 2]`, two batch items. -/
theorem C6_baseline_slice_and_reshape_witness :
    BaselineActionAdapter.add_units = 1 ∧
    BaselineActionAdapter.graph_fn_batched 5 [2, 2]
        [[1, 2, 3, 4, 5], [6, 7, 8, 9, 10]] =
      some ([[1, 2, 3, 4, 5], [6, 7, 8, 9, 10]].map List.headI,
        [[(1 : ℚ), 2, 3, 4, 5], [6, 7, 8, 9, 10]].map
          (fun row => STensor.mk [2, 2] row.tail)) ∧
    ∀ row ∈ [[(1 : ℚ), 2, 3, 4, 5], [6, 7, 8, 9, 10]],
      row.tail.length = 5 - 1 :=
  C6_baseline_slice_and_reshape 5 [2, 2] [[1, 2, 3, 4, 5], [6, 7, 8, 9, 10]]
    (by decide) (by decide) (by decide)
